import Mathlib

/-!
Verification of the easytrack wrapper library (`src/easytrack`): a shallow
embedding of the data model (`models.py`), the service layer (`services.py`),
the selectors (`selectors.py`) and the dynamic data-table wrappers
(`wrappers.py`), together with theorems settling the frozen claims about it.

Modelling conventions:
* Database state is explicit: a `CoreState` record holds the rows of the
  `core` tables and the dynamically created `data`-schema tables; every
  service call is a function from state to `Except`-wrapped state.
* Python `datetime` objects are `DT` values: a wall-clock reading in seconds
  together with an optional timezone.  Naive datetimes are interpreted as UTC
  wall clocks (the server convention assumed throughout the code base).
* Python scalars are `PyVal`; `float` values are modelled as exact rationals
  (plus `inf`, `-inf`, `nan`), which is sufficient here because no settled
  claim depends on binary floating-point rounding.
* Python's `int(...)` / `float(...)` string parsers are modelled on ASCII
  strings (sign, digit groups with underscore separators, decimal point,
  exponent, and the `inf`/`infinity`/`nan` spellings).
* `models.DataSourceColumn` declares no `column_order` field, yet
  `selectors.get_data_source_columns` orders by one (selectors.py:229), so
  in the source every call of that selector — and with it every data-table
  wrapper construction and every hourly-stats operation — raises
  `AttributeError`.  `getDataSourceColumnsChecked` embeds the call as it
  actually executes; `getDataSourceColumns` is the intent model (links
  carry their creation order) and appears only in theorems that disclose
  it.  Claims C2, C4, C5, C6, C7 and C10 record the defect.
-/

namespace EasyTrack

/-! ## Datetime model (`datetime` objects, `utils.strip_tz`) -/

/-- Timezone of an aware `datetime`: the `pytz.utc` object, or some other
fixed-offset timezone (offset east of UTC, in minutes). -/
inductive TZ where
  | utc : TZ
  | offsetMin (m : Int) : TZ
deriving DecidableEq, Repr

/-- Offset of a timezone from UTC, in seconds. -/
def TZ.offsetSec : TZ → Int
  | .utc => 0
  | .offsetMin m => 60 * m

/-- A Python `datetime`: the wall-clock reading (seconds since the epoch as
displayed in the value's own timezone) and an optional timezone.  `tz = none`
is a naive datetime. -/
structure DT where
  wall : Int
  tz : Option TZ
deriving DecidableEq, Repr

/-- UTC instant of a datetime.  An aware value converts through its offset; a
naive value is read as a UTC wall clock (server timezone assumed UTC). -/
def DT.instantOf (t : DT) : Int :=
  match t.tz with
  | none => t.wall
  | some z => t.wall - z.offsetSec

/-- Embeds `utils.strip_tz`: an aware datetime is converted to UTC and its
timezone dropped; a naive datetime is returned unchanged. -/
def stripTz (t : DT) : DT :=
  match t.tz with
  | none => t
  | some _ => ⟨t.instantOf, none⟩

/-- Floor of an instant to the start of its hour
(`replace(minute=0, second=0, microsecond=0)` on a UTC wall clock). -/
def floorHour (t : Int) : Int := t - t.emod 3600

/-! ## Python scalar values -/

/-- A Python `float`: an exact rational, or one of the special values. -/
inductive PyFloat where
  | num (q : Rat) : PyFloat
  | inf : PyFloat
  | ninf : PyFloat
  | nan : PyFloat
deriving DecidableEq, Repr

/-- Python `==` on floats (`nan` compares unequal to everything). -/
def PyFloat.eqb : PyFloat → PyFloat → Bool
  | .num a, .num b => a = b
  | .inf, .inf => true
  | .ninf, .ninf => true
  | _, _ => false

/-- A Python scalar as it appears in a data record value
(`Union[datetime, str, int, float]`). -/
inductive PyVal where
  | vDatetime (t : DT) : PyVal
  | vStr (s : String) : PyVal
  | vInt (n : Int) : PyVal
  | vFloat (f : PyFloat) : PyVal
deriving DecidableEq, Repr

/-- Python `==` between scalars: numbers compare across `int`/`float`,
datetimes compare by instant when both aware and by wall clock when both
naive, everything else by structure. -/
def pyEq : PyVal → PyVal → Bool
  | .vInt a, .vInt b => a = b
  | .vStr a, .vStr b => a = b
  | .vFloat a, .vFloat b => a.eqb b
  | .vInt a, .vFloat b => PyFloat.eqb (.num a) b
  | .vFloat a, .vInt b => a.eqb (.num b)
  | .vDatetime a, .vDatetime b =>
    match a.tz, b.tz with
    | none, none => a.wall = b.wall
    | some _, some _ => a.instantOf = b.instantOf
    | _, _ => false
  | _, _ => false

/-! ## Python string primitives

Lean's own `String.trim` and `String.splitOn` are not kernel-reducible, so
the Python string operations the source uses are implemented directly on
character lists. -/

/-- Splits a character list on a separator character (Python's
`str.split(sep)` for a one-character separator). -/
def splitChar (sep : Char) : List Char → List (List Char)
  | [] => [[]]
  | c :: rest =>
    let r := splitChar sep rest
    if c = sep then [] :: r
    else
      match r with
      | g :: gs => (c :: g) :: gs
      | [] => [[c]]

/-- Splits a string on a one-character separator. -/
def pySplit (sep : Char) (s : String) : List String :=
  (splitChar sep s.data).map String.mk

/-- ASCII whitespace recognised by Python's `str.strip()`. -/
def isPyWhitespace (c : Char) : Bool :=
  c = ' ' || c = '\t' || c = '\n' || c = '\r' || c = '\x0b' || c = '\x0c'

/-- Embeds Python's `str.strip()` (ASCII whitespace). -/
def stripChars (s : String) : String :=
  String.mk (((s.data.dropWhile isPyWhitespace).reverse.dropWhile
    isPyWhitespace).reverse)

/-- Embeds Python's `str.lower()` (ASCII letters). -/
def lowerStr (s : String) : String := String.mk (s.data.map Char.toLower)

/-- Embeds `','.join(entries)`. -/
def joinComma (l : List String) : String :=
  String.mk (List.intercalate [','] (l.map String.data))

/-! ## Python string-to-number parsing (`int(s)`, `float(s)`) -/

/-- Checks a digit group with underscore separators: nonempty, and splitting
on `_` yields nonempty all-digit runs (Python's `1_000` syntax). -/
def digitGroup (s : String) : Bool :=
  s ≠ "" && (pySplit '_' s).all (fun g => g ≠ "" && g.data.all Char.isDigit)

/-- Checks a possibly empty digit group (a `float` integer or fraction part
may be absent). -/
def digitGroupOpt (s : String) : Bool :=
  s = "" || digitGroup s

/-- Removes an optional single leading sign, returning it as `-1` or `1`. -/
def splitSign (s : String) : Int × String :=
  match s.data with
  | '+' :: rest => (1, String.mk rest)
  | '-' :: rest => (-1, String.mk rest)
  | _ => (1, s)

/-- Numeric value of an all-digit-and-underscore group. -/
def groupVal (s : String) : Nat :=
  (s.data.filter (· ≠ '_')).foldl (fun acc c => 10 * acc + c.toNat - '0'.toNat) 0

/-- Embeds Python's `int(s)` on a whitespace-stripped string: optional sign
followed by a digit group. -/
def pyIntVal (s : String) : Option Int :=
  let (sign, body) := splitSign s
  if digitGroup body then some (sign * (groupVal body : Int)) else none

/-- Success of Python's `int(s)`. -/
def pyIntParses (s : String) : Bool := (pyIntVal s).isSome

/-- Embeds the numeric grammar of Python's `float(s)` after the sign:
`D [. D?] | . D` optionally followed by `e [sign] D`. -/
def pyFloatBody (s : String) : Option Rat :=
  match pySplit 'e' (lowerStr s) with
  | [mant] => pyFloatMant mant
  | [mant, ex] =>
    match pyFloatMant mant with
    | none => none
    | some q =>
      let (esign, ebody) := splitSign ex
      if digitGroup ebody then
        some (q * (10 : Rat) ^ (esign * (groupVal ebody : Int))) else none
  | _ => none
where
  /-- Mantissa: integer part and optional fraction part, not both empty. -/
  pyFloatMant (m : String) : Option Rat :=
    match pySplit '.' m with
    | [ip] => if digitGroup ip then some (groupVal ip : Rat) else none
    | [ip, fp] =>
      if digitGroupOpt ip && digitGroupOpt fp && !(ip = "" && fp = "") then
        some ((groupVal ip : Rat) +
          (groupVal fp : Rat) / (10 : Rat) ^ (fp.data.length))
      else none
    | _ => none

/-- Embeds Python's `float(s)` on a whitespace-stripped string. -/
def pyFloatVal (s : String) : Option PyFloat :=
  let (sign, body) := splitSign s
  if lowerStr body = "inf" || lowerStr body = "infinity" then
    some (if sign = 1 then .inf else .ninf)
  else if lowerStr body = "nan" then some .nan
  else
    match pyFloatBody body with
    | none => none
    | some q => some (.num (sign * q))

/-- Success of Python's `float(s)`. -/
def pyFloatParses (s : String) : Bool := (pyFloatVal s).isSome

/-! ## Column types (`settings.ColumnTypes`) -/

/-- The four registered column types. -/
inductive ColType where
  | timestamp : ColType
  | text : ColType
  | integer : ColType
  | float : ColType
deriving DecidableEq, Repr

/-- Names of the registered column types, in `ColumnTypes.all()` order. -/
def validTypeStrs : List String := ["timestamp", "text", "integer", "float"]

/-- Embeds `ColumnTypes.from_str`: `none` models the `ValueError` raised on an
unknown type string. -/
def colTypeFromStr (s : String) : Option ColType :=
  if s = "timestamp" then some .timestamp
  else if s = "text" then some .text
  else if s = "integer" then some .integer
  else if s = "float" then some .float
  else none

/-- Embeds `isinstance(v, column_type.py_type)`. -/
def typeMatches (ct : ColType) : PyVal → Bool
  | .vDatetime _ => ct = .timestamp
  | .vStr _ => ct = .text
  | .vInt _ => ct = .integer
  | .vFloat _ => ct = .float

/-- Embeds `column_pytype(v)` applied to one `accept_values` entry: `str`
returns the string, `int`/`float` parse it, and `datetime` applied to a
string raises (modelled as `none`). -/
def castAccept (ct : ColType) (v : String) : Option PyVal :=
  match ct with
  | .timestamp => none
  | .text => some (.vStr v)
  | .integer => (pyIntVal v).map .vInt
  | .float => (pyFloatVal v).map .vFloat

/-- Casts every `accept_values` entry, failing if any entry fails
(the list comprehension in `BaseDataTableWrapper.insert`). -/
def castAcceptList (ct : ColType) : List String → Option (List PyVal)
  | [] => some []
  | v :: rest =>
    match castAccept ct v, castAcceptList ct rest with
    | some pv, some pvs => some (pv :: pvs)
    | _, _ => none

/-! ## Data model (`models.py`)

`models.DataSourceColumn` (models.py:113-122) declares only the
`data_source` and `column` foreign keys, yet
`selectors.get_data_source_columns` orders by a `column_order` field: the
attribute access at selectors.py:229 raises `AttributeError` on every call.
The embedding keeps both readings.  Each link carries an explicit
`columnOrder`, assigned in link-creation order (the order the selector's
own docstring describes), so the intended result is definable; and
`getDataSourceColumnsChecked` below models the call as it actually
executes, failing unconditionally.  Claims C2, C4, C5, C6, C7 and C10
record this mismatch against the source. -/

/-- Row of `core.column`. -/
structure Column where
  id : Nat
  name : String
  columnType : String
  isCategorical : Bool
  acceptValues : Option String
deriving DecidableEq, Repr

/-- Row of `core.data_source`. -/
structure DataSource where
  id : Nat
  name : String
deriving DecidableEq, Repr

/-- Row of `core.data_source_column`, with the ordering field the selector
sorts by (see the section comment). -/
structure DSLink where
  dataSourceId : Nat
  columnId : Nat
  columnOrder : Nat
deriving DecidableEq, Repr

/-- Identity of one dynamically created physical table in schema `data`:
`c{campaign}u{user}d{dataSource}` plus the `_aggregated` flag. -/
structure TableKey where
  campaignId : Nat
  userId : Nat
  dataSourceId : Nat
  isAgg : Bool
deriving DecidableEq, Repr

/-- Key of a value entry in an insert payload: Python dict keys here are
either column ids (ints) or column names (strings). -/
inductive PyKey where
  | kid (n : Nat) : PyKey
  | kname (s : String) : PyKey
deriving DecidableEq, Repr

/-- An insert payload (`value` dict). -/
abbrev PyDict := List (PyKey × PyVal)

/-- Embeds `value[k]` returning `none` on a missing key (`KeyError`). -/
def dictFind (v : PyDict) (k : PyKey) : Option PyVal :=
  (v.find? (fun p => p.1 = k)).map (·.2)

/-- Embeds `k in value`. -/
def dictHas (v : PyDict) (k : PyKey) : Bool := (v.find? (fun p => p.1 = k)).isSome

/-- One row of a dynamic data table: the table it lives in, the
`data_source_id` column, the normalized timestamp and the remaining column
values in canonical column order. -/
structure DataRow where
  table : TableKey
  dataSourceId : Nat
  ts : Int
  values : List PyVal
deriving DecidableEq, Repr

/-- The `amount` JSON of one `hourly_stats` row:
column id to (value to count). -/
abbrev Amount := List (Nat × List (String × Int))

/-- Row of `core.hourly_stats`; the participant is identified by its
(campaign, user) pair. -/
structure HourlyRow where
  participant : Nat × Nat
  dataSourceId : Nat
  ts : Int
  amount : Amount
deriving DecidableEq, Repr

/-- The database state: rows of the `core` tables plus the dynamic
`data`-schema tables, and the id sequences. -/
structure CoreState where
  dataSources : List DataSource
  columns : List Column
  dsLinks : List DSLink
  participants : List (Nat × Nat)
  campaignDataSources : List (Nat × Nat)
  hourlyStats : List HourlyRow
  tables : List TableKey
  dataRows : List DataRow
  nextDataSourceId : Nat
  nextColumnId : Nat
deriving DecidableEq, Repr

/-- A freshly initialised database. -/
def emptyState : CoreState :=
  ⟨[], [], [], [], [], [], [], [], 1, 1⟩

/-! ## Column creation (`services.create_column`) -/

/-- Failure modes of `create_column` (each is a `ValueError` in the source). -/
inductive ColErr where
  | emptyName : ColErr
  | reservedName : ColErr
  | invalidType : ColErr
  | categoricalNone : ColErr
  | textNotCategorical : ColErr
  | emptyAccept : ColErr
  | duplicateAccept : ColErr
  | badInt (v : String) : ColErr
  | badFloat (v : String) : ColErr
deriving DecidableEq, Repr

/-- Embeds `accept_values.strip().split(',')` with each entry stripped. -/
def splitStripped (av : String) : List String :=
  (pySplit ',' (stripChars av)).map stripChars

/-- The validation part of `services.create_column`, checks in source order;
on success returns the normalized `accept_values` string
(`','.join(tmp)`). -/
def createColumnCheck (name columnType : String) (isCategorical : Option Bool)
    (acceptValues : Option String) : Except ColErr (Option String) :=
  if name = "" then .error .emptyName
  else if name = "timestamp" then .error .reservedName
  else if !(validTypeStrs.contains columnType) then .error .invalidType
  else if isCategorical = none then .error .categoricalNone
  else if columnType = "text" && isCategorical = some false then
    .error .textNotCategorical
  else
    match acceptValues with
    | none => .ok none
    | some av =>
      if splitStripped av = [] then .error .emptyAccept
      else if !(splitStripped av).Nodup then .error .duplicateAccept
      else if columnType = "integer" then
        match (splitStripped av).find? (fun v => !pyIntParses v) with
        | some v => .error (.badInt v)
        | none => .ok (some (joinComma (splitStripped av)))
      else if columnType = "float" then
        match (splitStripped av).find? (fun v => !pyFloatParses v) with
        | some v => .error (.badFloat v)
        | none => .ok (some (joinComma (splitStripped av)))
      else .ok (some (joinComma (splitStripped av)))

/-- Embeds `services.create_column`: validation followed by
`mdl.Column.create`. -/
def createColumn (s : CoreState) (name columnType : String)
    (isCategorical : Option Bool) (acceptValues : Option String) :
    Except ColErr (CoreState × Column) :=
  match createColumnCheck name columnType isCategorical acceptValues with
  | .error e => .error e
  | .ok avStr =>
    let col : Column :=
      ⟨s.nextColumnId, name, columnType, isCategorical.getD false, avStr⟩
    .ok ({ s with columns := s.columns ++ [col],
                  nextColumnId := s.nextColumnId + 1 }, col)

/-! ## Data sources (`services.create_data_source`,
`selectors.get_data_source_columns`) -/

/-- Failure modes of `create_data_source`. -/
inductive DsErr where
  | emptyName : DsErr
  | emptyColumns : DsErr
deriving DecidableEq, Repr

/-- Builds the `data_source_column` links for a list of column ids, assigning
consecutive `columnOrder` values. -/
def mkLinks (dsId : Nat) : List Nat → Nat → List DSLink
  | [], _ => []
  | cid :: rest, k => ⟨dsId, cid, k⟩ :: mkLinks dsId rest (k + 1)

/-- Embeds `services.create_data_source`: rejects empty name or columns,
returns an existing data source of the same name unchanged, otherwise creates
the data source, injects the reserved `timestamp` column first and links the
caller's non-`timestamp` columns after it. -/
def createDataSource (s : CoreState) (name : String) (columns : List Column) :
    Except DsErr (CoreState × DataSource) :=
  if name = "" then .error .emptyName
  else if columns = [] then .error .emptyColumns
  else
    match s.dataSources.find? (fun d => d.name = name) with
    | some d => .ok (s, d)
    | none =>
      .ok ({ s with
              dataSources := s.dataSources ++ [⟨s.nextDataSourceId, name⟩],
              nextDataSourceId := s.nextDataSourceId + 1,
              columns := s.columns ++
                [⟨s.nextColumnId, "timestamp", "timestamp", false, none⟩],
              nextColumnId := s.nextColumnId + 1,
              dsLinks := s.dsLinks ++ mkLinks s.nextDataSourceId
                (s.nextColumnId ::
                  (columns.filter (fun col => col.name ≠ "timestamp")).map
                    (fun col => col.id)) 0 },
            ⟨s.nextDataSourceId, name⟩)

/-- Inserts a link into a list sorted by `columnOrder`. -/
def insertByOrder (l : DSLink) : List DSLink → List DSLink
  | [] => [l]
  | x :: xs =>
    if l.columnOrder < x.columnOrder then l :: x :: xs else x :: insertByOrder l xs

/-- Sorts links by `columnOrder` ascending (the selector's `order_by`). -/
def sortByOrder : List DSLink → List DSLink
  | [] => []
  | x :: xs => insertByOrder x (sortByOrder xs)

/-- The list `selectors.get_data_source_columns` is meant to return, per its
docstring and the repo's tests: the links of the data source, ordered by
`columnOrder` ascending, resolved to their columns.  This is the intent
model of the selector; the call as written never returns — see
`getDataSourceColumnsChecked`. -/
def getDataSourceColumns (s : CoreState) (dsId : Nat) : List Column :=
  (sortByOrder (s.dsLinks.filter (fun l => l.dataSourceId = dsId))).filterMap
    (fun l => s.columns.find? (fun c => c.id = l.columnId))

/-- Whether `models.DataSourceColumn` declares the `column_order` field the
selector sorts by: it does not — models.py:113-122 declares only the
`data_source` and `column` foreign keys. -/
def columnOrderDeclared : Bool := false

/-- Embeds `selectors.get_data_source_columns` as it actually executes:
building the query (selectors.py:226) is lazy, but the `order_by` argument
evaluates `models.DataSourceColumn.column_order` (selectors.py:229), so the
call raises `AttributeError` (`none` here) before touching the database.
Had the field been declared, the result would be `getDataSourceColumns`. -/
def getDataSourceColumnsChecked (s : CoreState) (dsId : Nat) :
    Option (List Column) :=
  if columnOrderDeclared then some (getDataSourceColumns s dsId) else none

/-! ## Campaign bindings (`services.add_campaign_participant`,
`services.add_campaign_data_source`, `services.remove_campaign_data_source`)

Both binding services create their association row first and then construct
one `wrappers.DataTable` (and, for participants, `AggDataTable`) per
fan-out target.  `BaseDataTableWrapper.__init__` calls the failing column
selector (wrappers.py:113), so the first wrapper construction raises
`AttributeError`: the association row stays persisted, and no physical
table is ever created on either path. -/

/-- The `AttributeError` escaping a service call through
`BaseDataTableWrapper.__init__` (wrappers.py:113; root cause the undeclared
`DataSourceColumn.column_order`, see `getDataSourceColumnsChecked`). -/
inductive SvcErr where
  | attributeError : SvcErr
deriving DecidableEq, Repr

/-- Data source ids bound to a campaign, in association order
(`selectors.get_campaign_data_sources`). -/
def campaignDataSourceIds (s : CoreState) (c : Nat) : List Nat :=
  (s.campaignDataSources.filter (fun p => p.1 = c)).map (·.2)

/-- User ids of a campaign's participants, in row order
(`selectors.get_campaign_participants`). -/
def campaignParticipantUserIds (s : CoreState) (c : Nat) : List Nat :=
  (s.participants.filter (fun p => p.1 = c)).map (·.2)

/-- Embeds `services.add_campaign_participant`: `False` on an existing
participant; otherwise the `Participant` row is created (services.py:176)
and the fan-out over the campaign's data sources begins
(services.py:179-181) — its first iteration constructs
`wrappers.DataTable`, whose `__init__` raises `AttributeError`
(wrappers.py:113), leaving the new row persisted and no table created.
Only a campaign with no data sources returns `True`.  (The intended
fan-out would create the raw and aggregated table per data source.) -/
def addCampaignParticipant (s : CoreState) (c u : Nat) :
    CoreState × Except SvcErr Bool :=
  if (c, u) ∈ s.participants then (s, .ok false)
  else
    match campaignDataSourceIds s c with
    | [] => ({ s with participants := s.participants ++ [(c, u)] }, .ok true)
    | _ :: _ =>
      ({ s with participants := s.participants ++ [(c, u)] },
       .error .attributeError)

/-- Embeds `services.add_campaign_data_source`: `False` on an existing
binding; otherwise the `CampaignDataSource` row is created
(services.py:295) and the fan-out over the campaign's participants begins
(services.py:296-297) — its first iteration constructs
`wrappers.DataTable`, whose `__init__` raises `AttributeError`
(wrappers.py:113), leaving the new row persisted and no table created.
Only a campaign with no participants returns `True`.  (The intended
fan-out would create only the raw table — this path constructs no
`AggDataTable`.) -/
def addCampaignDataSource (s : CoreState) (c d : Nat) :
    CoreState × Except SvcErr Bool :=
  if (c, d) ∈ s.campaignDataSources then (s, .ok false)
  else
    match campaignParticipantUserIds s c with
    | [] =>
      ({ s with campaignDataSources := s.campaignDataSources ++ [(c, d)] },
       .ok true)
    | _ :: _ =>
      ({ s with campaignDataSources := s.campaignDataSources ++ [(c, d)] },
       .error .attributeError)

/-- Embeds `services.remove_campaign_data_source`: returns the state
unchanged when the binding is absent, otherwise deletes every matching
`CampaignDataSource` row and nothing else. -/
def removeCampaignDataSource (s : CoreState) (c d : Nat) : CoreState :=
  if (c, d) ∈ s.campaignDataSources then
    { s with campaignDataSources :=
        s.campaignDataSources.filter (fun p => p ≠ (c, d)) }
  else s

/-! ## Record insertion (`wrappers.BaseDataTableWrapper.insert`,
`wrappers.DataTable.select_count`) -/

/-- Failure modes of the data-table wrappers.  `attributeError` is the
`AttributeError` raised inside `BaseDataTableWrapper.__init__` itself
(wrappers.py:113, see `getDataSourceColumnsChecked`), before any method
can run; `missingColumn`, `wrongType`, `notAccepted` and
`invalidColumnType` are the `ValueError`s `insert`'s body raises;
`castFail` models the exception escaping the accept-value cast, and
`keyErrorName` models the `KeyError` from the `value[column.name]` lookup
at wrappers.py:247. -/
inductive InsErr where
  | attributeError : InsErr
  | missingColumn (id : Nat) : InsErr
  | invalidColumnType (t : String) : InsErr
  | wrongType (name : String) : InsErr
  | castFail (name : String) : InsErr
  | keyErrorName (name : String) : InsErr
  | notAccepted (name : String) : InsErr
deriving DecidableEq, Repr

/-- The validation loop of `insert`, over the data source's columns in
canonical order, skipping the reserved `timestamp` column; returns the first
failure, `none` when the payload is valid.  Note the source checks presence
and type through `value[column.id]` but checks `accept_values` membership
through `value[column.name]`. -/
def insertValidate (value : PyDict) : List Column → Option InsErr
  | [] => none
  | col :: rest =>
    if col.name = "timestamp" then insertValidate value rest
    else
      match dictFind value (.kid col.id) with
      | none => some (.missingColumn col.id)
      | some v =>
        match colTypeFromStr col.columnType with
        | none => some (.invalidColumnType col.columnType)
        | some ct =>
          if !typeMatches ct v then some (.wrongType col.name)
          else
            match col.acceptValues with
            | none => insertValidate value rest
            | some av =>
              if av = "" then insertValidate value rest
              else
                match castAcceptList ct (pySplit ',' av) with
                | none => some (.castFail col.name)
                | some accepted =>
                  match dictFind value (.kname col.name) with
                  | none => some (.keyErrorName col.name)
                  | some byName =>
                    if !(accepted.any (fun a => pyEq a byName)) then
                      some (.notAccepted col.name)
                    else insertValidate value rest

/-- The row assembly of `insert`: `value[column.id]` for every
non-`timestamp` column, in canonical order (validation has already
established presence). -/
def rowValues (value : PyDict) (cols : List Column) : List PyVal :=
  cols.filterMap (fun col =>
    if col.name = "timestamp" then none else dictFind value (.kid col.id))

/-- Embeds the body of `DataTable.insert` (wrappers.py:202-296) for the
participant `(c, u)` and data source `d`, over the intended column list:
full validation first, then exactly one row appended with the wrapper's
`data_source_id` and the tz-stripped timestamp.  This is the method body
in isolation; in the source the wrapper's constructor already fails before
the method can be reached — `dataTableInsertChecked` models the full call
path. -/
def dataTableInsert (s : CoreState) (c u d : Nat) (timestamp : DT)
    (value : PyDict) : Except InsErr CoreState :=
  match insertValidate value (getDataSourceColumns s d) with
  | some e => .error e
  | none =>
    .ok { s with dataRows := s.dataRows ++
            [⟨⟨c, u, d, false⟩, d, (stripTz timestamp).wall,
              rowValues value (getDataSourceColumns s d)⟩] }

/-- The count `DataTable.select_count`'s query computes: rows of the bound
physical table with the wrapper's `data_source_id` and timestamp in
`[from, till)`, both bounds tz-stripped.  In the source the method is
unreachable — the wrapper's constructor fails first, see
`dataTableSelectCount`. -/
def selectCount (s : CoreState) (c u d : Nat) (fromTs tillTs : DT) : Nat :=
  (s.dataRows.filter (fun r =>
    r.table = ⟨c, u, d, false⟩ && r.dataSourceId = d &&
    (stripTz fromTs).wall ≤ r.ts && r.ts < (stripTz tillTs).wall)).length

/-- Embeds the full call path `wrappers.DataTable(...).insert(...)`: the
constructor runs first and raises `AttributeError` (wrappers.py:113)
before the method body is reached. -/
def dataTableInsertChecked (s : CoreState) (c u d : Nat) (timestamp : DT)
    (value : PyDict) : Except InsErr CoreState :=
  match getDataSourceColumnsChecked s d with
  | none => .error .attributeError
  | some cols =>
    match insertValidate value cols with
    | some e => .error e
    | none =>
      .ok { s with dataRows := s.dataRows ++
              [⟨⟨c, u, d, false⟩, d, (stripTz timestamp).wall,
                rowValues value cols⟩] }

/-- Embeds the full call path `wrappers.DataTable(...).select_count(...)`:
the constructor raises `AttributeError` (wrappers.py:113) before the query
can run; the count the query would return is `selectCount`. -/
def dataTableSelectCount (s : CoreState) (c u d : Nat) (fromTs tillTs : DT) :
    Except InsErr Nat :=
  match getDataSourceColumnsChecked s d with
  | none => .error .attributeError
  | some _ => .ok (selectCount s c u d fromTs tillTs)

/-! ## Batched record creation (`services.create_data_records`) -/

/-- Embeds `selectors.find_data_source` by id. -/
def findDataSourceById (s : CoreState) (d : Nat) : Option DataSource :=
  s.dataSources.find? (fun ds => ds.id = d)

/-- Zips the three argument lists of `create_data_records` the way Python's
`zip` does (truncating to the shortest). -/
def zip3 : List DT → List Nat → List PyDict → List (DT × Nat × PyDict)
  | t :: ts, d :: ds, v :: vs => (t, d, v) :: zip3 ts ds vs
  | _, _, _ => []

/-- The loop of `create_data_records`: resolves each data source id through
the per-call cache, silently skips triples whose id resolves to no data
source (services.py:521-523), and otherwise inserts through
`create_data_record` (services.py:489) — whose `wrappers.DataTable`
construction raises `AttributeError`, modelled by
`dataTableInsertChecked`. -/
def createDataRecordsGo (c u : Nat) :
    CoreState → List (Nat × DataSource) → List (DT × Nat × PyDict) →
    Except InsErr CoreState
  | s, _, [] => .ok s
  | s, cache, (ts, d, v) :: rest =>
    match cache.find? (fun p => p.1 = d) with
    | some p =>
      match dataTableInsertChecked s c u p.2.id ts v with
      | .error e => .error e
      | .ok s2 => createDataRecordsGo c u s2 cache rest
    | none =>
      match findDataSourceById s d with
      | none => createDataRecordsGo c u s cache rest
      | some dsrc =>
        match dataTableInsertChecked s c u dsrc.id ts v with
        | .error e => .error e
        | .ok s2 => createDataRecordsGo c u s2 ((d, dsrc) :: cache) rest

/-- Embeds `services.create_data_records` for participant `(c, u)`. -/
def createDataRecords (s : CoreState) (c u : Nat) (dataSourceIds : List Nat)
    (timestamps : List DT) (values : List PyDict) : Except InsErr CoreState :=
  createDataRecordsGo c u s [] (zip3 timestamps dataSourceIds values)

/-! ## Hourly stats (`services.create_hourly_stats`,
`selectors.get_hourly_amount_of_data`) -/

/-- Failure modes of the hourly-stats operations.  `attributeError` is the
failing column selector (called at services.py:439 and selectors.py:261,
see `getDataSourceColumnsChecked`); the other two are the `ValueError`s
of the intended paths. -/
inductive HsErr where
  | attributeError : HsErr
  | invalidColumnId (id : Nat) : HsErr
  | notUtc : HsErr
deriving DecidableEq, Repr

/-- Replaces the amount of the first row satisfying the predicate. -/
def updateFirst (p : HourlyRow → Bool) (amount : Amount) :
    List HourlyRow → List HourlyRow
  | [] => []
  | r :: rest =>
    if p r then { r with amount := amount } :: rest
    else r :: updateFirst p amount rest

/-- Key predicate of an hourly-stats row. -/
def hourlyKey (p : Nat × Nat) (d : Nat) (h : Int) (r : HourlyRow) : Bool :=
  r.participant = p && r.dataSourceId = d && r.ts = h

/-- Embeds `services.create_hourly_stats`: after normalizing the timestamp
to naive UTC floored to the hour, the column-id validation begins with the
column selector (services.py:439), which raises `AttributeError` — before
any `hourly_stats` row is read or written.  The continuation under the
`some` branch is the intended body: validate every `amount` key against
the data source's column ids, then update the first existing row for the
key or insert a new one. -/
def createHourlyStats (s : CoreState) (p : Nat × Nat) (d : Nat)
    (hourTimestamp : DT) (amount : Amount) : Except HsErr CoreState :=
  match getDataSourceColumnsChecked s d with
  | none => .error .attributeError
  | some cols =>
    match amount.find? (fun kv => !((cols.map (·.id)).contains kv.1)) with
    | some kv => .error (.invalidColumnId kv.1)
    | none =>
      if (s.hourlyStats.filter
          (hourlyKey p d (floorHour hourTimestamp.instantOf))).isEmpty then
        .ok { s with hourlyStats :=
          (s.hourlyStats ++ [⟨p, d, floorHour hourTimestamp.instantOf, amount⟩]) }
      else
        .ok { s with hourlyStats :=
          (updateFirst (hourlyKey p d (floorHour hourTimestamp.instantOf))
            amount s.hourlyStats) }

/-- The zero-filled seed for one column: its `accept_values` entries when the
column has a non-empty constraint string, else the single key `amount`. -/
def seedFor (col : Column) : List (String × Int) :=
  match col.acceptValues with
  | some av => if av = "" then [("amount", 0)] else (pySplit ',' av).map (fun v => (v, 0))
  | none => [("amount", 0)]

/-- The zero-filled result shape: one histogram per non-`timestamp` column of
the data source, in canonical column order. -/
def zeroSeed (cols : List Column) : List (Column × List (String × Int)) :=
  cols.filterMap (fun col =>
    if col.name = "timestamp" then none else some (col, seedFor col))

/-- Merges a stored `amount` into the seed: a column present in the stored
map is replaced wholesale, a column absent from it keeps its seed. -/
def hourlyView (cols : List Column) (a : Amount) :
    List (Column × List (String × Int)) :=
  (zeroSeed cols).map (fun e =>
    match a.find? (fun kv => kv.1 = e.1.id) with
    | none => e
    | some kv => (e.1, kv.2))

/-- The latest row of a list (`order_by timestamp desc limit 1`). -/
def latestRow : List HourlyRow → Option HourlyRow
  | [] => none
  | r :: rest =>
    match latestRow rest with
    | none => some r
    | some best => if best.ts < r.ts then some r else some best

/-- Embeds `selectors.get_hourly_amount_of_data`: requires a `pytz.utc`
timestamp (selectors.py:257), floors to the hour, then calls the column
selector (selectors.py:261), which raises `AttributeError` — so even a
well-formed UTC query never returns.  The continuation under the `some`
branch is the intended read: seed a zero-filled shape, look up the
exact-hour row, and fall back to the latest row at or before the hour. -/
def getHourlyAmountOfData (s : CoreState) (p : Nat × Nat) (d : Nat)
    (hourTimestamp : DT) : Except HsErr (List (Column × List (String × Int))) :=
  if hourTimestamp.tz ≠ some .utc then .error .notUtc
  else
    match getDataSourceColumnsChecked s d with
    | none => .error .attributeError
    | some cols =>
      match (s.hourlyStats.filter
          (hourlyKey p d (floorHour hourTimestamp.wall))).head? with
      | some r => .ok (hourlyView cols r.amount)
      | none =>
        match latestRow (s.hourlyStats.filter (fun r =>
            r.participant = p && r.dataSourceId = d &&
            r.ts ≤ floorHour hourTimestamp.wall)) with
        | some r => .ok (hourlyView cols r.amount)
        | none => .ok (zeroSeed cols)

/-! ## Spec-side predicates and concrete instances -/

/-- Parse check named by claim C8 for one `accept_values` entry ("entries
that do not parse as the column_type"): `integer` and `float` entries go
through the Python parsers, entries of other types always parse. -/
def entryParsesAs (columnType v : String) : Bool :=
  if columnType = "integer" then pyIntParses v
  else if columnType = "float" then pyFloatParses v
  else true

/-- The error condition of claim C8 exactly as the claim states it: empty or
reserved name, unknown type, unset categorical flag, non-categorical text, or
an `accept_values` string with duplicates, empty entries, or entries that do
not parse as the column type. -/
def claimC8Raises (name columnType : String) (isCategorical : Option Bool)
    (acceptValues : Option String) : Bool :=
  name = "" || name = "timestamp" || !(validTypeStrs.contains columnType) ||
  isCategorical.isNone || (columnType = "text" && isCategorical = some false) ||
  (match acceptValues with
   | none => false
   | some av =>
     !(splitStripped av).Nodup || (splitStripped av).contains "" ||
     (splitStripped av).any (fun v => !entryParsesAs columnType v))

/-- The amended error condition for claim C8, matching the code: the empty
and unparseable entry checks apply only to `integer` and `float` columns
(`text` and `timestamp` columns accept any entries, duplicates aside). -/
def amendedC8Raises (name columnType : String) (isCategorical : Option Bool)
    (acceptValues : Option String) : Bool :=
  name = "" || name = "timestamp" || !(validTypeStrs.contains columnType) ||
  isCategorical.isNone || (columnType = "text" && isCategorical = some false) ||
  (match acceptValues with
   | none => false
   | some av =>
     !(splitStripped av).Nodup ||
     (columnType = "integer" && (splitStripped av).any (fun v => !pyIntParses v)) ||
     (columnType = "float" && (splitStripped av).any (fun v => !pyFloatParses v)))

/-- The column produced by the concrete C8 witness call. -/
def colC8 : Column := ⟨1, "mood", "text", true, some "happy,sad"⟩

/-- Database state with one data source `survey` whose single user column
`mood` is a constrained text column (`accept_values = "happy,sad"`). -/
def sC1 : CoreState :=
  { emptyState with
      dataSources := [⟨1, "survey"⟩],
      columns := [⟨1, "timestamp", "timestamp", false, none⟩,
                  ⟨2, "mood", "text", true, some "happy,sad"⟩],
      dsLinks := [⟨1, 1, 0⟩, ⟨1, 2, 1⟩],
      nextDataSourceId := 2, nextColumnId := 3 }

/-- State produced by the first C3 witness call: data source `accel` created
over one float column with id 5. -/
def sC3one : CoreState :=
  { emptyState with
      dataSources := [⟨1, "accel"⟩],
      columns := [⟨1, "timestamp", "timestamp", false, none⟩],
      dsLinks := [⟨1, 1, 0⟩, ⟨1, 5, 1⟩],
      nextDataSourceId := 2, nextColumnId := 2 }

/-- Database state for the C6 evaluation: one raw table `c1u1d1` holding two
rows at timestamps 100 and 200. -/
def sC6 : CoreState :=
  { emptyState with
      dataRows := [⟨⟨1, 1, 1, false⟩, 1, 100, [.vInt 7]⟩,
                   ⟨⟨1, 1, 1, false⟩, 1, 200, [.vInt 8]⟩] }

/-- Database state for the C7 evaluation: data source 1 has an integer
column with id 2, and one hourly-stats row exists for participant (1,1) at
hour 3600 with an old amount. -/
def sC7 : CoreState :=
  { emptyState with
      dataSources := [⟨1, "accel"⟩],
      columns := [⟨1, "timestamp", "timestamp", false, none⟩,
                  ⟨2, "value", "integer", false, none⟩],
      dsLinks := [⟨1, 1, 0⟩, ⟨1, 2, 1⟩],
      hourlyStats := [⟨(1, 1), 1, 3600, [(2, [("amount", 1)])]⟩],
      nextDataSourceId := 2, nextColumnId := 3 }

/-- Database state for the C4 witness: one pre-existing column with id 1, no
data sources yet. -/
def sC4 : CoreState :=
  { emptyState with columns := [⟨1, "value", "float", false, none⟩],
                    nextColumnId := 2 }

/-- State after the C4 witness created data source `accel` over the column
with id 1: the reserved timestamp column got id 2 and link order 0. -/
def sC4post : CoreState :=
  { sC4 with
      dataSources := [⟨1, "accel"⟩],
      nextDataSourceId := 2,
      columns := [⟨1, "value", "float", false, none⟩,
                  ⟨2, "timestamp", "timestamp", false, none⟩],
      nextColumnId := 3,
      dsLinks := [⟨1, 2, 0⟩, ⟨1, 1, 1⟩] }

/-- Database state for the C10 evaluation: one data source `accel` (id 1)
with an unconstrained integer column of id 2; the ids 98 and 99 resolve to
no data source. -/
def sC10 : CoreState :=
  { emptyState with
      dataSources := [⟨1, "accel"⟩],
      columns := [⟨1, "timestamp", "timestamp", false, none⟩,
                  ⟨2, "value", "integer", false, none⟩],
      dsLinks := [⟨1, 1, 0⟩, ⟨1, 2, 1⟩],
      nextDataSourceId := 2, nextColumnId := 3 }

/-- Database state for the C9 witness: campaign 1 is bound to data source 2
and owns that pair's raw and aggregated tables. -/
def sC9 : CoreState :=
  { emptyState with
      participants := [(1, 1)],
      campaignDataSources := [(1, 2)],
      tables := [⟨1, 1, 2, false⟩, ⟨1, 1, 2, true⟩] }

/-! ## Helper lemmas -/

lemma isOk_ok (a : α) : (Except.ok a : Except ε α).isOk = true := rfl

lemma isOk_error (e : ε) : (Except.error e : Except ε α).isOk = false := rfl

lemma splitChar_ne_nil (sep : Char) (l : List Char) : splitChar sep l ≠ [] := by
  induction l with
  | nil => simp [splitChar]
  | cons c rest ih =>
    simp only [splitChar]
    split
    · simp
    · split <;> simp_all

lemma splitStripped_ne_nil (av : String) : splitStripped av ≠ [] := by
  simp only [splitStripped, pySplit, ne_eq, List.map_eq_nil_iff]
  exact splitChar_ne_nil ',' _

lemma find?_none_any (p : String → Bool) (l : List String)
    (heq : l.find? (fun x => !p x) = none) : l.any (fun x => !p x) = false := by
  have hall := List.find?_eq_none.mp heq
  simp only [List.any_eq_false]
  intro x hx
  simpa using hall x hx

lemma find?_some_any (p : String → Bool) (l : List String) (v : String)
    (heq : l.find? (fun x => !p x) = some v) : l.any (fun x => !p x) = true := by
  simp only [List.any_eq_true]
  refine ⟨v, List.mem_of_find?_eq_some heq, ?_⟩
  have hx := List.find?_some (p := fun x => !p x) heq
  simpa using hx

/-- The validation of `create_column` succeeds exactly when the amended C8
condition is false. -/
lemma check_isOk (n t : String) (c : Option Bool) (a : Option String) :
    (createColumnCheck n t c a).isOk = !(amendedC8Raises n t c a) := by
  by_cases h1 : n = ""
  · simp [createColumnCheck, amendedC8Raises, isOk_ok, isOk_error, h1]
  by_cases h2 : n = "timestamp"
  · simp [createColumnCheck, amendedC8Raises, isOk_ok, isOk_error, h1, h2]
  by_cases h3 : t ∈ validTypeStrs
  case neg =>
    simp [createColumnCheck, amendedC8Raises, isOk_ok, isOk_error, h1, h2, h3,
      List.elem_iff]
  by_cases h4 : c = none
  · simp [createColumnCheck, amendedC8Raises, isOk_ok, isOk_error, h1, h2, h3, h4,
      List.elem_iff]
  simp only [validTypeStrs, List.mem_cons, List.not_mem_nil, or_false] at h3
  have hokc : c.isSome = true := Option.isSome_iff_ne_none.mpr h4
  obtain rfl | rfl | rfl | rfl := h3
  · cases a with
    | none =>
      simp [createColumnCheck, amendedC8Raises, isOk_ok, isOk_error, h1, h2, h4,
        hokc, validTypeStrs]
    | some av =>
      simp [createColumnCheck, amendedC8Raises, isOk_ok, isOk_error, h1, h2, h4,
        hokc, validTypeStrs, splitStripped_ne_nil av]
      by_cases hdup : (splitStripped av).Nodup <;> simp [hdup, isOk_ok, isOk_error]
  · by_cases hc : c = some false
    · simp [createColumnCheck, amendedC8Raises, isOk_ok, isOk_error, h1, h2, h4, hc,
        validTypeStrs]
    cases a with
    | none =>
      simp [createColumnCheck, amendedC8Raises, isOk_ok, isOk_error, h1, h2, h4, hc,
        hokc, validTypeStrs]
    | some av =>
      simp [createColumnCheck, amendedC8Raises, isOk_ok, isOk_error, h1, h2, h4, hc,
        hokc, validTypeStrs, splitStripped_ne_nil av]
      by_cases hdup : (splitStripped av).Nodup <;> simp [hdup, isOk_ok, isOk_error]
  · cases a with
    | none =>
      simp [createColumnCheck, amendedC8Raises, isOk_ok, isOk_error, h1, h2, h4,
        hokc, validTypeStrs]
    | some av =>
      by_cases hdup : (splitStripped av).Nodup
      case neg =>
        simp [createColumnCheck, amendedC8Raises, isOk_ok, isOk_error, h1, h2, h4,
          hokc, validTypeStrs, splitStripped_ne_nil av, hdup]
      rcases heq : (splitStripped av).find? (fun v => !pyIntParses v) with _ | v
      · simp [createColumnCheck, amendedC8Raises, isOk_ok, isOk_error, h1, h2, h4,
          hokc, validTypeStrs, splitStripped_ne_nil av, hdup, heq,
          find?_none_any _ _ heq]
      · simp [createColumnCheck, amendedC8Raises, isOk_ok, isOk_error, h1, h2, h4,
          hokc, validTypeStrs, splitStripped_ne_nil av, hdup, heq,
          find?_some_any _ _ _ heq]
  · cases a with
    | none =>
      simp [createColumnCheck, amendedC8Raises, isOk_ok, isOk_error, h1, h2, h4,
        hokc, validTypeStrs]
    | some av =>
      by_cases hdup : (splitStripped av).Nodup
      case neg =>
        simp [createColumnCheck, amendedC8Raises, isOk_ok, isOk_error, h1, h2, h4,
          hokc, validTypeStrs, splitStripped_ne_nil av, hdup]
      rcases heq : (splitStripped av).find? (fun v => !pyFloatParses v) with _ | v
      · simp [createColumnCheck, amendedC8Raises, isOk_ok, isOk_error, h1, h2, h4,
          hokc, validTypeStrs, splitStripped_ne_nil av, hdup, heq,
          find?_none_any _ _ heq]
      · simp [createColumnCheck, amendedC8Raises, isOk_ok, isOk_error, h1, h2, h4,
          hokc, validTypeStrs, splitStripped_ne_nil av, hdup, heq,
          find?_some_any _ _ _ heq]

/-- Rows written by `insert` carry the data source id of the table they are
written to: the invariant that makes `select_count`'s `data_source_id`
filter redundant on a table populated through the wrapper. -/
lemma dataTableInsert_consistent (s s2 : CoreState) (c u d : Nat) (ts : DT)
    (v : PyDict)
    (hinv : ∀ r ∈ s.dataRows, r.table.dataSourceId = r.dataSourceId ∧
      r.table.isAgg = false)
    (hok : dataTableInsert s c u d ts v = .ok s2) :
    ∀ r ∈ s2.dataRows, r.table.dataSourceId = r.dataSourceId ∧
      r.table.isAgg = false := by
  unfold dataTableInsert at hok
  split at hok
  · exact absurd hok (by simp)
  · obtain rfl := Except.ok.inj hok
    intro r hr
    rcases List.mem_append.mp hr with h' | h'
    · exact hinv r h'
    · rw [List.mem_singleton.mp h']
      exact ⟨rfl, rfl⟩

lemma mkLinks_mem (ds : Nat) :
    ∀ (ids : List Nat) (k : Nat) (l : DSLink), l ∈ mkLinks ds ids k →
      l.dataSourceId = ds ∧ l.columnId ∈ ids ∧ k ≤ l.columnOrder := by
  intro ids
  induction ids with
  | nil => intro k l h; cases h
  | cons x xs ih =>
    intro k l h
    rcases List.mem_cons.mp h with rfl | hmem
    · exact ⟨rfl, List.mem_cons_self _ _, Nat.le_refl _⟩
    · obtain ⟨h1, h2, h3⟩ := ih (k + 1) l hmem
      exact ⟨h1, List.mem_cons_of_mem _ h2, Nat.le_of_succ_le h3⟩

lemma mkLinks_pairwise (ds : Nat) :
    ∀ (ids : List Nat) (k : Nat),
      List.Pairwise (fun a b => a.columnOrder < b.columnOrder) (mkLinks ds ids k) := by
  intro ids
  induction ids with
  | nil => intro k; exact List.Pairwise.nil
  | cons x xs ih =>
    intro k
    refine List.Pairwise.cons ?_ (ih (k + 1))
    intro l hl
    have := (mkLinks_mem ds xs (k + 1) l hl).2.2
    simpa using Nat.lt_of_succ_le this

lemma insertByOrder_of_lt (l : DSLink) (xs : List DSLink)
    (h : ∀ y ∈ xs, l.columnOrder < y.columnOrder) :
    insertByOrder l xs = l :: xs := by
  cases xs with
  | nil => rfl
  | cons y ys =>
    unfold insertByOrder
    rw [if_pos (h y (List.mem_cons_self _ _))]

lemma sortByOrder_eq_self (xs : List DSLink)
    (h : List.Pairwise (fun a b => a.columnOrder < b.columnOrder) xs) :
    sortByOrder xs = xs := by
  induction xs with
  | nil => rfl
  | cons x ys ih =>
    unfold sortByOrder
    rw [ih (List.Pairwise.sublist (List.sublist_cons_self x ys) h)]
    exact insertByOrder_of_lt x ys (fun y hy => List.rel_of_pairwise_cons h hy)

/-! ## Claim theorems -/

/-- C8 counterexample: `create_column('label', 'text', is_categorical=True,
accept_values='a,')` succeeds although its `accept_values` contains an empty
entry, so the claim's "raises exactly when ... empty entries" is false as
stated. -/
theorem c8_counterexample :
    (createColumn emptyState "label" "text" (some true) (some "a,")).isOk = true ∧
    claimC8Raises "label" "text" (some true) (some "a,") = true := by
  constructor <;> decide

/-- C8 (amended): `create_column` raises exactly when the name is empty or
reserved, the type is unknown, `is_categorical` is unset, a text column is
not categorical, or `accept_values` has duplicate entries or — for integer
and float columns only — entries that do not parse as the column type; on
success it persists exactly one new column and changes nothing else. -/
theorem c8_create_column_error_iff (s : CoreState) (name columnType : String)
    (isCategorical : Option Bool) (acceptValues : Option String) :
    ((createColumn s name columnType isCategorical acceptValues).isOk = false ↔
      amendedC8Raises name columnType isCategorical acceptValues = true) ∧
    (∀ s2 col,
      createColumn s name columnType isCategorical acceptValues = .ok (s2, col) →
      s2 = { s with columns := s.columns ++ [col],
                    nextColumnId := s.nextColumnId + 1 } ∧
      col.id = s.nextColumnId ∧ col.name = name ∧ col.columnType = columnType) := by
  have h := check_isOk name columnType isCategorical acceptValues
  constructor
  · unfold createColumn
    rcases hc : createColumnCheck name columnType isCategorical acceptValues
      with e | av <;> rw [hc] at h
    · rw [isOk_error] at h
      simp only [isOk_error]
      simp at h
      simp [h]
    · rw [isOk_ok] at h
      simp only [isOk_ok]
      simp at h
      simp [h]
  · intro s2 col hok
    unfold createColumn at hok
    rcases hc : createColumnCheck name columnType isCategorical acceptValues
      with e | av <;> rw [hc] at hok
    · exact absurd hok (by simp)
    · simp only [Except.ok.injEq, Prod.mk.injEq] at hok
      obtain ⟨hs2, hcol⟩ := hok
      subst hs2
      subst hcol
      exact ⟨rfl, rfl, rfl, rfl⟩

/-- Witness for C8: a concrete valid call is accepted and persists exactly
the one new column. -/
theorem c8_witness :
    ({ emptyState with columns := [colC8], nextColumnId := 2 } : CoreState) =
      { emptyState with columns := emptyState.columns ++ [colC8],
                        nextColumnId := emptyState.nextColumnId + 1 } ∧
    colC8.id = emptyState.nextColumnId ∧ colC8.name = "mood" ∧
    colC8.columnType = "text" :=
  (c8_create_column_error_iff emptyState "mood" "text" (some true)
    (some "happy,sad")).2
    { emptyState with columns := [colC8], nextColumnId := 2 } colC8 rfl

/-- C9: `remove_campaign_data_source` deletes only the matching
`CampaignDataSource` rows; tables, participants, data sources, columns, rows
and hourly stats are untouched, and an unbound pair leaves the state
entirely unchanged. -/
theorem c9_remove_frame (s : CoreState) (c d : Nat) :
    (removeCampaignDataSource s c d).tables = s.tables ∧
    (removeCampaignDataSource s c d).participants = s.participants ∧
    (removeCampaignDataSource s c d).dataRows = s.dataRows ∧
    (removeCampaignDataSource s c d).dataSources = s.dataSources ∧
    (removeCampaignDataSource s c d).columns = s.columns ∧
    (removeCampaignDataSource s c d).dsLinks = s.dsLinks ∧
    (removeCampaignDataSource s c d).hourlyStats = s.hourlyStats ∧
    (removeCampaignDataSource s c d).campaignDataSources =
      s.campaignDataSources.filter (fun p => p ≠ (c, d)) ∧
    ((c, d) ∉ s.campaignDataSources → removeCampaignDataSource s c d = s) := by
  unfold removeCampaignDataSource
  split
  · rename_i hmem
    exact ⟨rfl, rfl, rfl, rfl, rfl, rfl, rfl, rfl, fun hnot => absurd hmem hnot⟩
  · rename_i hmem
    have hfilt : s.campaignDataSources.filter (fun p => p ≠ (c, d)) =
        s.campaignDataSources := by
      apply List.filter_eq_self.mpr
      intro a ha
      simp only [ne_eq, decide_eq_true_eq]
      intro heq
      exact hmem (heq ▸ ha)
    exact ⟨rfl, rfl, rfl, rfl, rfl, rfl, rfl, hfilt.symm, fun _ => rfl⟩

/-- Witness for C9: removing an unbound data source from a concrete state
with existing tables changes nothing. -/
theorem c9_witness : removeCampaignDataSource sC9 1 1 = sC9 :=
  (c9_remove_frame sC9 1 1).2.2.2.2.2.2.2.2 (by decide)

/-- C3: `create_data_source` is idempotent by name — after a successful call
returned `(s1, ds1)`, calling it again on `s1` with the same non-empty name
and any non-empty column list returns the same data source id and leaves the
state exactly `s1`. -/
theorem c3_create_data_source_idempotent (s s1 : CoreState) (name : String)
    (cols1 cols2 : List Column) (ds1 : DataSource)
    (hn : name ≠ "") (h1 : cols1 ≠ []) (h2 : cols2 ≠ [])
    (hcall : createDataSource s name cols1 = .ok (s1, ds1)) :
    createDataSource s1 name cols2 = .ok (s1, ds1) := by
  unfold createDataSource at hcall ⊢
  rw [if_neg hn, if_neg h1] at hcall
  rw [if_neg hn, if_neg h2]
  rcases hfind : s.dataSources.find? (fun d => d.name = name) with _ | d
  · rw [hfind] at hcall
    simp only [Except.ok.injEq, Prod.mk.injEq] at hcall
    obtain ⟨hs1, hds1⟩ := hcall
    subst hs1
    subst hds1
    have hfind2 : ((s.dataSources ++ [(⟨s.nextDataSourceId, name⟩ : DataSource)]).find?
        (fun d => d.name = name)) = some ⟨s.nextDataSourceId, name⟩ := by
      rw [List.find?_append, hfind]
      simp [List.find?]
    simp only [hfind2]
  · rw [hfind] at hcall
    simp only [Except.ok.injEq, Prod.mk.injEq] at hcall
    obtain ⟨hs1, hds1⟩ := hcall
    subst hs1
    subst hds1
    simp only [hfind]

/-- Witness for C3: creating `accel` twice on a fresh database returns the
same data source and does not change the state on the second call. -/
theorem c3_witness :
    createDataSource sC3one "accel" [⟨6, "other", "integer", false, none⟩] =
      .ok (sC3one, ⟨1, "accel"⟩) :=
  c3_create_data_source_idempotent emptyState sC3one "accel"
    [⟨5, "value", "float", false, none⟩] [⟨6, "other", "integer", false, none⟩]
    ⟨1, "accel"⟩ (by decide) (by decide) (by decide) rfl

/-- C1 (code bug): with values keyed by column id — as `insert`'s own
docstring requires — a payload that satisfies every stated condition
(present, correctly typed, member of `accept_values`) raises `KeyError`
instead of succeeding, because the membership check at wrappers.py:247 reads
`value[column.name]` rather than `value[column.id]`. -/
theorem c1_insert_keyerror :
    dataTableInsert sC1 1 1 1 ⟨0, none⟩ [(.kid 2, .vStr "happy")] =
      .error (.keyErrorName "mood") ∧
    typeMatches .text (.vStr "happy") = true ∧
    (castAcceptList .text (pySplit ',' "happy,sad")).isSome = true ∧
    pyEq (.vStr "happy") (.vStr "happy") = true :=
  ⟨rfl, rfl, rfl, rfl⟩

/-- C4 (code bug, intended behaviour): on the intent-modelled embedding — the
selector's ordering field supplied in link-creation order, since
`models.DataSourceColumn` declares no `column_order` at all — every freshly
created data source lists exactly one column named `timestamp`, and it comes
first in `get_data_source_columns`. -/
theorem c4_reserved_column_model (s s1 : CoreState) (name : String) (cols : List Column)
    (ds : DataSource)
    (hwf1 : ∀ cl ∈ s.columns, cl.id < s.nextColumnId)
    (hwf2 : (s.columns.map (fun cl => cl.id)).Nodup)
    (hwf3 : ∀ l ∈ s.dsLinks, l.dataSourceId < s.nextDataSourceId)
    (hcols : ∀ cl ∈ cols, cl ∈ s.columns)
    (hfresh : ∀ dsrc ∈ s.dataSources, dsrc.name ≠ name)
    (hok : createDataSource s name cols = .ok (s1, ds)) :
    (getDataSourceColumns s1 ds.id).head?.map (fun cl => cl.name) =
      some "timestamp" ∧
    ((getDataSourceColumns s1 ds.id).filter
      (fun cl => cl.name = "timestamp")).length = 1 := by
  unfold createDataSource at hok
  by_cases hname : name = ""
  · rw [if_pos hname] at hok
    exact absurd hok (by simp)
  rw [if_neg hname] at hok
  by_cases hcols0 : cols = []
  · rw [if_pos hcols0] at hok
    exact absurd hok (by simp)
  rw [if_neg hcols0] at hok
  have hfind : s.dataSources.find? (fun d => d.name = name) = none := by
    apply List.find?_eq_none.mpr
    intro x hx
    simpa using hfresh x hx
  rw [hfind] at hok
  simp only [Except.ok.injEq, Prod.mk.injEq] at hok
  obtain ⟨hs1, hds⟩ := hok
  subst hs1
  subst hds
  unfold getDataSourceColumns
  simp only []
  rw [List.filter_append]
  have hold : s.dsLinks.filter
      (fun l => l.dataSourceId = s.nextDataSourceId) = [] := by
    apply List.filter_eq_nil_iff.mpr
    intro l hl
    have := hwf3 l hl
    simp only [decide_eq_true_eq]
    omega
  rw [hold]
  have hnew : (mkLinks s.nextDataSourceId
      (s.nextColumnId :: (cols.filter (fun col => col.name ≠ "timestamp")).map
        (fun col => col.id)) 0).filter
      (fun l => l.dataSourceId = s.nextDataSourceId) =
      mkLinks s.nextDataSourceId
      (s.nextColumnId :: (cols.filter (fun col => col.name ≠ "timestamp")).map
        (fun col => col.id)) 0 := by
    apply List.filter_eq_self.mpr
    intro l hl
    have := (mkLinks_mem _ _ _ l hl).1
    simp [this]
  rw [List.nil_append, hnew]
  rw [sortByOrder_eq_self _ (mkLinks_pairwise _ _ _)]
  unfold mkLinks
  simp only [List.filterMap_cons]
  have hts : (s.columns ++
      [(⟨s.nextColumnId, "timestamp", "timestamp", false, none⟩ : Column)]).find?
      (fun cl => cl.id = s.nextColumnId) =
      some ⟨s.nextColumnId, "timestamp", "timestamp", false, none⟩ := by
    rw [List.find?_append]
    have h1 : s.columns.find? (fun cl => cl.id = s.nextColumnId) = none := by
      apply List.find?_eq_none.mpr
      intro x hx
      have := hwf1 x hx
      simp only [decide_eq_true_eq]
      omega
    rw [h1]
    simp [List.find?]
  rw [hts]
  have htail : ∀ cl ∈ List.filterMap
      (fun l => List.find? (fun c => c.id = l.columnId) (s.columns ++
        [(⟨s.nextColumnId, "timestamp", "timestamp", false, none⟩ : Column)]))
      (mkLinks s.nextDataSourceId
        ((cols.filter (fun col => col.name ≠ "timestamp")).map
          (fun col => col.id)) (0 + 1)), cl.name ≠ "timestamp" := by
    intro cl hcl
    obtain ⟨l, hl, hfl⟩ := List.mem_filterMap.mp hcl
    obtain ⟨-, hcid, -⟩ := mkLinks_mem _ _ _ l hl
    obtain ⟨uc, hucmem, hucid⟩ := List.mem_map.mp hcid
    have hclmem := List.mem_of_find?_eq_some hfl
    have hclid : cl.id = l.columnId := by
      have := List.find?_some hfl
      simpa using this
    have hucs : uc ∈ s.columns := hcols uc (List.mem_of_mem_filter hucmem)
    rcases List.mem_append.mp hclmem with hin | hin
    · have hcid2 : cl.id = uc.id := by
        have huc2 : uc.id = l.columnId := by simpa using hucid
        rw [hclid, huc2]
      have hequc : cl = uc :=
        List.inj_on_of_nodup_map hwf2 hin hucs (by simpa using hcid2)
      subst hequc
      have := List.of_mem_filter hucmem
      simpa using this
    · obtain rfl := List.mem_singleton.mp hin
      simp only [] at hclid
      have huc2 : uc.id = l.columnId := by simpa using hucid
      have := hwf1 uc hucs
      omega
  constructor
  · rfl
  · rw [List.filter_cons_of_pos (by simp)]
    have hnil : List.filter (fun cl => cl.name = "timestamp")
        (List.filterMap
          (fun l => List.find? (fun c => c.id = l.columnId) (s.columns ++
            [(⟨s.nextColumnId, "timestamp", "timestamp", false, none⟩ : Column)]))
          (mkLinks s.nextDataSourceId
            ((cols.filter (fun col => col.name ≠ "timestamp")).map
              (fun col => col.id)) (0 + 1))) = [] := by
      apply List.filter_eq_nil_iff.mpr
      intro cl hcl
      simpa using htail cl hcl
    rw [hnil]
    rfl


/-- Witness for C4: creating `accel` over one pre-existing float column on a
concrete state puts the reserved timestamp column first and exactly once. -/
theorem c4_witness :
    (getDataSourceColumns sC4post 1).head?.map (fun cl => cl.name) =
      some "timestamp" ∧
    ((getDataSourceColumns sC4post 1).filter
      (fun cl => cl.name = "timestamp")).length = 1 :=
  c4_reserved_column_model sC4 sC4post "accel"
    [⟨1, "value", "float", false, none⟩] ⟨1, "accel"⟩
    (by decide) (by decide) (by decide) (by decide) (by decide) rfl

/-- C2 (code bug): binding-order commutativity of table creation is the
intent the spec and the repo's own tests (`test_participant_addition`,
`test_random_addition`) state, but on the faithful embedding neither order
creates any table: whichever binding runs second must fan out over a
nonempty set, and its first `wrappers.DataTable` construction raises
`AttributeError` (wrappers.py:113) — with the association row already
persisted and `tables` untouched.  Concretely, for campaign 1, user 1 and
data source 1 on a fresh database, both orders end in the error state that
holds both association rows and no table at all.  (Even the intended
fan-out of `add_campaign_data_source`, services.py:296-297, would create
only the raw table, so the aggregated half of the claim would fail
regardless.) -/
theorem c2_binding_order_attribute_error :
    addCampaignDataSource emptyState 1 1 =
      ({ emptyState with campaignDataSources := [(1, 1)] }, .ok true) ∧
    addCampaignParticipant
        { emptyState with campaignDataSources := [(1, 1)] } 1 1 =
      ({ emptyState with campaignDataSources := [(1, 1)],
                         participants := [(1, 1)] }, .error .attributeError) ∧
    addCampaignParticipant emptyState 1 1 =
      ({ emptyState with participants := [(1, 1)] }, .ok true) ∧
    addCampaignDataSource { emptyState with participants := [(1, 1)] } 1 1 =
      ({ emptyState with participants := [(1, 1)],
                         campaignDataSources := [(1, 1)] },
       .error .attributeError) :=
  ⟨rfl, rfl, rfl, rfl⟩

/-- C6 (code bug): the half-open interval count is exactly what the
`select_count` query computes — on the concrete two-row table `sC6`,
`selectCount` counts one row in `[100, 200)` and zero in the empty interval
`[150, 150)` — but in the source `select_count` is unreachable: for every
state and every bounds, constructing the `wrappers.DataTable` raises
`AttributeError` in `__init__` (wrappers.py:113) before the method exists
to be called. -/
theorem c6_select_count_attribute_error :
    (∀ (s : CoreState) (c u d : Nat) (fromTs tillTs : DT),
      dataTableSelectCount s c u d fromTs tillTs = .error .attributeError) ∧
    selectCount sC6 1 1 1 ⟨100, none⟩ ⟨200, none⟩ = 1 ∧
    selectCount sC6 1 1 1 ⟨150, none⟩ ⟨150, none⟩ = 0 :=
  ⟨fun _ _ _ _ _ _ => rfl, by decide, by decide⟩

/-- C7 (code bug): the upsert keyed by (participant, data source, floored
hour) is what `create_hourly_stats`'s docstring promises and what its body
after the column-id validation implements, but the call never gets there:
for every state, participant, data source, timestamp and amount, the
validation's column selector (services.py:439) raises `AttributeError`
before any `hourly_stats` row is read or written — concretely, the
overwrite of the existing hour-3600 row of `sC7` never happens. -/
theorem c7_upsert_attribute_error :
    (∀ (s : CoreState) (p : Nat × Nat) (d : Nat) (t : DT) (a : Amount),
      createHourlyStats s p d t a = .error .attributeError) ∧
    createHourlyStats sC7 (1, 1) 1 ⟨3700, none⟩ [(2, [("amount", 5)])] =
      .error .attributeError :=
  ⟨fun _ _ _ _ _ => rfl, rfl⟩

/-- C10 (code bug): triples whose data source id resolves to nothing are
indeed silently skipped (services.py:521-523) — on `sC10` the
all-unresolvable batch over ids 99 and 98 returns with no error and the
state unchanged — but "the remaining triples are still processed" fails
for any resolvable triple: processing it constructs a `wrappers.DataTable`
(services.py:489) whose `__init__` raises `AttributeError`
(wrappers.py:113), aborting the batch.  Concretely, the batch over ids
[99, 1, 98] skips 99, then dies on the resolvable id 1 and never reaches
98. -/
theorem c10_skip_then_attribute_error :
    createDataRecords sC10 1 1 [99, 98] [⟨10, none⟩, ⟨20, none⟩]
        [[(.kid 2, .vInt 7)], [(.kid 2, .vInt 8)]] = .ok sC10 ∧
    createDataRecords sC10 1 1 [99, 1, 98]
        [⟨10, none⟩, ⟨20, none⟩, ⟨30, none⟩]
        [[(.kid 2, .vInt 7)], [(.kid 2, .vInt 8)], [(.kid 2, .vInt 9)]] =
      .error .attributeError :=
  ⟨rfl, rfl⟩

/-- C5 (code bug): the forward-fill snapshot semantics the spec states is
exactly what the repo's own tests (`test_hourly_stats_now`,
`test_hourly_stats_edges`) expect, but on the faithful embedding both ends
of the pipeline raise unconditionally: `create_hourly_stats` calls the
failing column selector at services.py:439, and `get_hourly_amount_of_data`
calls it at selectors.py:261 — even for the UTC-aware query timestamps its
own guard demands — so no snapshot is ever written and no read ever
returns. -/
theorem c5_hourly_attribute_error :
    (∀ (s : CoreState) (p : Nat × Nat) (d : Nat) (t : DT) (a : Amount),
      createHourlyStats s p d t a = .error .attributeError) ∧
    (∀ (s : CoreState) (p : Nat × Nat) (d : Nat) (w : Int),
      getHourlyAmountOfData s p d ⟨w, some TZ.utc⟩ = .error .attributeError) :=
  ⟨fun _ _ _ _ _ => rfl, fun _ _ _ _ => rfl⟩

end EasyTrack
